import Mathlib

/-!
Verification development for the media-web-app repository.

The client (src/media_web_app/static/script.js) is embedded shallowly:
DOM state becomes an explicit `PageState`, the browser display region a
list of nodes, and each event listener a function from a network outcome
and a page state to a new page state together with an observable event
trace.  The storage schema (the `CREATE TABLE media` statement in the
unnamed SQL source file) is embedded as a row type plus the SQL CHECK
semantics (a NULL operand makes a CHECK pass).
-/

/-! ## Client constants (script.js lines 15-21) -/

/-- The single icon file every entry of `fileTypeThumbnailMap` points at. -/
def defaultFileIcon : String := "./static/resources/file_icon_500_500.svg"

/-- The `fileTypeThumbnailMap` object literal of script.js, embedded as an
association list from media type to default thumbnail path. -/
def fileTypeThumbnailMap : List (String × String) :=
  [("movie", defaultFileIcon),
   ("show", defaultFileIcon),
   ("music", defaultFileIcon),
   ("book", defaultFileIcon)]

/-- JavaScript property lookup `fileTypeThumbnailMap[type]`: the value when
the key is present, `none` (JavaScript `undefined`) otherwise. -/
def thumbnailFor (t : String) : Option String :=
  (fileTypeThumbnailMap.find? (fun p => p.1 == t)).map (fun p => p.2)

/-- JavaScript truthiness of the optional `imgSource` string argument:
`undefined` and the empty string are falsy, every other string is truthy. -/
def jsTruthy : Option String → Bool
  | none => false
  | some s => !(s == "")

/-! ## Media records and file cards -/

/-- One record returned by the backend and rendered as a card.  The
`thumbnail` field carries the record's optional explicit image reference
(the `thumbnail` column of the schema, called `thumbnailUrl` in the spec). -/
structure MediaEntry where
  title : String
  type : String
  description : String
  thumbnail : Option String
  deriving DecidableEq

/-- The visible content of one file card built by `createFileElement`:
the `src` of the thumbnail image (`none` models an `undefined`
interpolation), the title text and the description text.  The download
button is constant markup present on every card. -/
structure FileCard where
  thumbnail : Option String
  title : String
  description : String
  deriving DecidableEq

/-- Embedding of `createFileElement(title, type, description, imgSource)`
(script.js lines 35-61): the card thumbnail is `imgSource` when it is
truthy, otherwise the `fileTypeThumbnailMap[type]` lookup. -/
def createFileElement (title type description : String) (imgSource : Option String) : FileCard :=
  { thumbnail := if jsTruthy imgSource then imgSource else thumbnailFor type
    title := title
    description := description }

/-! ## The browser display region -/

/-- One child node of the `browser` display region: either a rendered file
card or a text message span. -/
inductive BrowserNode where
  | file : FileCard → BrowserNode
  | message : String → BrowserNode
  deriving DecidableEq

/-- The children of the `browser` element, in document order. -/
abbrev BrowserState := List BrowserNode

/-- The assignment `browser.innerHTML = ""`: discards all current children. -/
def clearBrowser (_ : BrowserState) : BrowserState := []

/-- Embedding of `renderMediaEntries(entries)` (script.js lines 63-74).
When `entries` is non-empty the region is cleared and one card is appended
per entry via `createFileElement(entry['title'], entry['type'],
entry['description'])` - the source passes no fourth argument, so
`imgSource` is `undefined` (`none`).  When `entries` is empty the region
is replaced by the single "No results found" message. -/
def renderMediaEntries (entries : List MediaEntry) (browser : BrowserState) : BrowserState :=
  if entries.length > 0 then
    entries.foldl
      (fun b entry =>
        b ++ [BrowserNode.file (createFileElement entry.title entry.type entry.description none)])
      (clearBrowser browser)
  else
    [BrowserNode.message "No results found"]

/-! ## Page view state and the two toggles -/

/-- The DOM state touched by the script: the browser region, the search
mode button label, the `style.display` of the two search forms and of the
new-entry overlay, `document.body.style.overflow`, and the values of the
new-entry form fields. -/
structure PageState where
  browser : BrowserState
  searchModeBtnText : String
  searchFormSimpleDisplay : String
  searchFormAdvancedDisplay : String
  newEntryViewDisplay : String
  bodyOverflow : String
  newEntryFormFields : List (String × String)
  deriving DecidableEq

/-- Embedding of `toggleSearchMode(mode)` (script.js lines 77-87): on
"simple" show the simple form, hide the advanced one and label the button
"Advanced Search"; on "advanced" the mirror image; any other string is a
no-op (neither branch fires). -/
def toggleSearchMode (mode : String) (p : PageState) : PageState :=
  if mode = "simple" then
    { p with searchModeBtnText := "Advanced Search"
             searchFormSimpleDisplay := "flex"
             searchFormAdvancedDisplay := "none" }
  else if mode = "advanced" then
    { p with searchModeBtnText := "Simple Search"
             searchFormSimpleDisplay := "none"
             searchFormAdvancedDisplay := "flex" }
  else p

/-- Embedding of `toggleNewEntryView(entry)` (script.js lines 90-98):
`true` opens the overlay and suppresses body scrolling, `false` hides it
and restores scrolling. -/
def toggleNewEntryView (entry : Bool) (p : PageState) : PageState :=
  if entry then
    { p with bodyOverflow := "hidden", newEntryViewDisplay := "flex" }
  else
    { p with bodyOverflow := "auto", newEntryViewDisplay := "none" }

/-- Embedding of the `searchModeBtn` click listener (script.js lines
110-116): dispatch on the current button label; an unrecognized label
fires neither branch. -/
def searchModeBtnClick (p : PageState) : PageState :=
  if p.searchModeBtnText = "Simple Search" then toggleSearchMode "simple" p
  else if p.searchModeBtnText = "Advanced Search" then toggleSearchMode "advanced" p
  else p

/-- The two calls of the "Initial Page Setup" section at the bottom of
script.js, in source order: `toggleSearchMode("simple")` then
`toggleNewEntryView(false)`. -/
def initialPageSetup (p : PageState) : PageState :=
  toggleNewEntryView false (toggleSearchMode "simple" p)

/-- Iterated clicks of the search mode button, to quantify over every
state reachable from the initial setup by the toggle alone. -/
def searchModeBtnClicks : Nat → PageState → PageState
  | 0, p => p
  | n + 1, p => searchModeBtnClicks n (searchModeBtnClick p)

/-! ## Network handlers

Each listener body is embedded as a function from the network outcome
(`some entries` for a successful fetch plus JSON parse, `none` for a
transport or parse failure) and the current script state to the new
script state.  The script state additionally records the console log, an
ordered trace of the observable actions the handler performed, the number
of floating rejected promises it produced, and whether an exception
escaped the listener itself. -/

/-- Observable actions of a handler, in execution order. -/
inductive UIEvent where
  | formReset
  | requestSent
  | responseArrived
  | errorCaught
  | renderCompleted
  | overlayClosed
  deriving DecidableEq

/-- The whole script-visible state threaded through a handler. -/
structure JSState where
  page : PageState
  consoleLog : List String
  events : List UIEvent
  unhandledRejections : Nat
  listenerErrored : Bool
  deriving DecidableEq

/-- Embedding of the `window` "load" listener together with
`getRecentMediaEntries` (script.js lines 26-33 and 101-104).  Neither has
a try/catch: on success the entries are rendered; on failure the awaited
rejection propagates out of the async listener (`listenerErrored`),
nothing is logged and the display is untouched. -/
def windowLoadHandler (net : Option (List MediaEntry)) (s : JSState) : JSState :=
  match net with
  | some entries =>
      { s with
        page := { s.page with browser := renderMediaEntries entries s.page.browser }
        events := s.events ++ [UIEvent.requestSent, UIEvent.responseArrived,
                               UIEvent.renderCompleted] }
  | none =>
      { s with
        events := s.events ++ [UIEvent.requestSent]
        listenerErrored := true }

/-- Embedding of the `searchFormSimple` "submit" listener (script.js
lines 129-147).  The fetch and `response.json()` sit in a try/catch whose
catch logs "Error:".  After the try/catch, `renderMediaEntries(result)`
runs un-awaited: on success its synchronous body renders the entries; on
failure `result` is `undefined`, so `entries.length` throws a TypeError
inside the un-awaited async call, which becomes one floating rejected
promise - the listener itself completes normally either way. -/
def searchFormSimpleSubmitHandler (net : Option (List MediaEntry)) (s : JSState) : JSState :=
  let s1 := { s with events := s.events ++ [UIEvent.requestSent] }
  match net with
  | some entries =>
      { s1 with
        page := { s1.page with browser := renderMediaEntries entries s1.page.browser }
        events := s1.events ++ [UIEvent.responseArrived, UIEvent.renderCompleted] }
  | none =>
      { s1 with
        consoleLog := s1.consoleLog ++ ["Error:"]
        events := s1.events ++ [UIEvent.errorCaught]
        unhandledRejections := s1.unhandledRejections + 1 }

/-- Embedding of the `newEntryForm` "submit" listener (script.js lines
150-170), statement by statement in source order: capture the form data,
`newEntryForm.reset()` (every field value becomes the empty string), send
the request inside the try/catch, then the un-awaited
`renderMediaEntries(result)` (same semantics as in the search handler),
then `toggleNewEntryView(false)` unconditionally. -/
def newEntryFormSubmitHandler (net : Option (List MediaEntry)) (s : JSState) : JSState :=
  let s1 := { s with
    page := { s.page with
      newEntryFormFields := s.page.newEntryFormFields.map (fun f : String × String => (f.1, "")) }
    events := s.events ++ [UIEvent.formReset] }
  let s2 := { s1 with events := s1.events ++ [UIEvent.requestSent] }
  let s3 :=
    match net with
    | some entries =>
        { s2 with
          page := { s2.page with browser := renderMediaEntries entries s2.page.browser }
          events := s2.events ++ [UIEvent.responseArrived, UIEvent.renderCompleted] }
    | none =>
        { s2 with
          consoleLog := s2.consoleLog ++ ["Error:"]
          events := s2.events ++ [UIEvent.errorCaught]
          unhandledRejections := s2.unhandledRejections + 1 }
  { s3 with
    page := toggleNewEntryView false s3.page
    events := s3.events ++ [UIEvent.overlayClosed] }

/-! ## The storage schema (CREATE TABLE media) -/

/-- One candidate row for the `media` relation; every column except the
NOT NULL `title` is nullable, `none` standing for SQL NULL. -/
structure MediaRow where
  title : Option String
  type : Option String
  thumbnail : Option String
  description : Option String
  genre : Option String
  released : Option Int
  length : Option Int
  path : Option String
  deriving DecidableEq

/-- The `CHECK (type IN ('movie', 'show', 'video'))` constraint under SQL
semantics: a NULL operand makes the CHECK pass. -/
def sqlCheckType : Option String → Bool
  | none => true
  | some t => t == "movie" || t == "show" || t == "video"

/-- The `CHECK (released BETWEEN 1800 and 9999)` constraint; NULL passes. -/
def sqlCheckReleased : Option Int → Bool
  | none => true
  | some y => decide (1800 ≤ y) && decide (y ≤ 9999)

/-- The `CHECK (length < 100000)` constraint; NULL passes. -/
def sqlCheckLength : Option Int → Bool
  | none => true
  | some l => decide (l < 100000)

/-- A row is accepted into `media` exactly when `title` is non-NULL and
all three CHECK constraints pass. -/
def mediaRowAccepted (r : MediaRow) : Bool :=
  r.title.isSome && sqlCheckType r.type && sqlCheckReleased r.released && sqlCheckLength r.length

/-! ## Shared lemmas -/

/-- Appending one element per list item from an accumulator is a map. -/
theorem foldl_append_singleton_eq_map {α β : Type} (f : α → β) :
    ∀ (l : List α) (acc : List β),
      l.foldl (fun b a => b ++ [f a]) acc = acc ++ l.map f := by
  intro l
  induction l with
  | nil => intro acc; simp
  | cons x xs ih =>
      intro acc
      simp [List.foldl, ih, List.append_assoc]

/-! ## Claims -/

/-- Claim C4: for every non-empty entry list, `renderMediaEntries` first
fully clears the display region (the result does not depend on the prior
browser content) and then produces exactly one card per record, in exactly
the input order - the final region is precisely the map of
`createFileElement` over the entries. -/
theorem c4_render_nonempty (entries : List MediaEntry) (browser : BrowserState)
    (h : entries ≠ []) :
    renderMediaEntries entries browser =
      entries.map (fun entry =>
        BrowserNode.file (createFileElement entry.title entry.type entry.description none)) := by
  have hlen : entries.length > 0 := List.length_pos.mpr h
  simp [renderMediaEntries, hlen, clearBrowser,
        foldl_append_singleton_eq_map
          (fun entry : MediaEntry =>
            BrowserNode.file (createFileElement entry.title entry.type entry.description none))]

/-- Claim C4 witness: evaluation of the theorem at a concrete one-element
entry list. -/
theorem c4_witness :
    ([⟨"Dune", "movie", "epic", none⟩] : List MediaEntry) ≠ [] ∧
    renderMediaEntries [⟨"Dune", "movie", "epic", none⟩] [] =
      ([⟨"Dune", "movie", "epic", none⟩] : List MediaEntry).map (fun entry =>
        BrowserNode.file (createFileElement entry.title entry.type entry.description none)) :=
  ⟨by decide, c4_render_nonempty [⟨"Dune", "movie", "epic", none⟩] [] (by decide)⟩

/-- Claim C5: rendering the empty entry list replaces whatever the region
held before with exactly the single "No results found" message and no
cards. -/
theorem c5_render_empty (browser : BrowserState) :
    renderMediaEntries [] browser = [BrowserNode.message "No results found"] := rfl

/-- Claim C6: `renderMediaEntries` is idempotent - rendering the same
entry list twice in succession leaves exactly the display state of a
single rendering, because both branches fully replace the region. -/
theorem c6_render_idempotent (entries : List MediaEntry) (browser : BrowserState) :
    renderMediaEntries entries (renderMediaEntries entries browser) =
      renderMediaEntries entries browser := rfl

/-- Claim C1: evaluation at the failing input.  The record carries the
explicit thumbnail "x.png", yet `renderMediaEntries` (which never passes
the record's thumbnail on to `createFileElement`) renders the card with
the default movie icon, which differs from the explicit thumbnail. -/
theorem c1_explicit_thumbnail_ignored :
    (⟨"T", "movie", "d", some "x.png"⟩ : MediaEntry).thumbnail = some "x.png" ∧
    renderMediaEntries [⟨"T", "movie", "d", some "x.png"⟩] [] =
      [BrowserNode.file { thumbnail := some defaultFileIcon, title := "T", description := "d" }] ∧
    some defaultFileIcon ≠ some "x.png" := by
  refine ⟨rfl, by decide, by decide⟩

/-- Claim C8: every row accepted into the `media` relation has a non-NULL
title, a type (when present) drawn from the fixed enumeration, a released
year (when present) within [1800, 9999] and a length (when present)
strictly below 100000. -/
theorem c8_schema_constraints (r : MediaRow) (h : mediaRowAccepted r = true) :
    r.title ≠ none ∧
    (∀ t, r.type = some t → t = "movie" ∨ t = "show" ∨ t = "video") ∧
    (∀ y, r.released = some y → 1800 ≤ y ∧ y ≤ 9999) ∧
    (∀ l, r.length = some l → l < 100000) := by
  simp only [mediaRowAccepted, Bool.and_eq_true] at h
  obtain ⟨⟨⟨htitle, htype⟩, hrel⟩, hlen⟩ := h
  refine ⟨?_, ?_, ?_, ?_⟩
  · intro hnone
    rw [hnone] at htitle
    simp [Option.isSome] at htitle
  · intro t ht
    rw [ht] at htype
    simp [sqlCheckType] at htype
    tauto
  · intro y hy
    rw [hy] at hrel
    simp [sqlCheckReleased] at hrel
    exact hrel
  · intro l hl
    rw [hl] at hlen
    simp [sqlCheckLength] at hlen
    exact hlen

/-- Claim C8 witness: the theorem applied to a concrete accepted row. -/
theorem c8_witness :
    (⟨some "Dune", some "movie", none, none, none, some 2021, some 155, none⟩ : MediaRow).title ≠ none ∧
    (∀ t, (⟨some "Dune", some "movie", none, none, none, some 2021, some 155, none⟩ : MediaRow).type = some t →
      t = "movie" ∨ t = "show" ∨ t = "video") ∧
    (∀ y, (⟨some "Dune", some "movie", none, none, none, some 2021, some 155, none⟩ : MediaRow).released = some y →
      1800 ≤ y ∧ y ≤ 9999) ∧
    (∀ l, (⟨some "Dune", some "movie", none, none, none, some 2021, some 155, none⟩ : MediaRow).length = some l →
      l < 100000) :=
  c8_schema_constraints
    ⟨some "Dune", some "movie", none, none, none, some 2021, some 155, none⟩ (by decide)

/-- Claim C10: the schema's type enumeration and the client's default
thumbnail table disagree.  A row of type "video" with no explicit
thumbnail is accepted by the schema, yet the client lookup for "video"
yields no value (and the card built for it carries no thumbnail), while
"music" and "book" have client table entries although the schema's type
CHECK rejects them. -/
theorem c10_schema_client_mismatch :
    mediaRowAccepted ⟨some "V", some "video", none, none, none, none, none, none⟩ = true ∧
    thumbnailFor "video" = none ∧
    (createFileElement "V" "video" "" none).thumbnail = none ∧
    thumbnailFor "music" = some defaultFileIcon ∧
    thumbnailFor "book" = some defaultFileIcon ∧
    sqlCheckType (some "music") = false ∧
    sqlCheckType (some "book") = false := by
  decide

/-- The visible search-mode configuration paired with its button label:
either the simple form is shown, the advanced hidden and the button
offers "Advanced Search", or the mirror image.  In both cases the label
names exactly the state that is not currently active. -/
def searchModeLabelInvariant (p : PageState) : Prop :=
  (p.searchFormSimpleDisplay = "flex" ∧ p.searchFormAdvancedDisplay = "none" ∧
   p.searchModeBtnText = "Advanced Search") ∨
  (p.searchFormSimpleDisplay = "none" ∧ p.searchFormAdvancedDisplay = "flex" ∧
   p.searchModeBtnText = "Simple Search")

/-- One click of the search-mode button preserves the label invariant. -/
theorem searchModeLabelInvariant_click (p : PageState)
    (h : searchModeLabelInvariant p) : searchModeLabelInvariant (searchModeBtnClick p) := by
  rcases h with ⟨h1, h2, h3⟩ | ⟨h1, h2, h3⟩ <;>
    simp [searchModeBtnClick, toggleSearchMode, searchModeLabelInvariant, h3]

/-- Any number of clicks of the search-mode button preserves the label
invariant. -/
theorem searchModeLabelInvariant_clicks (n : Nat) (p : PageState)
    (h : searchModeLabelInvariant p) :
    searchModeLabelInvariant (searchModeBtnClicks n p) := by
  induction n generalizing p with
  | zero => exact h
  | succ m ih => exact ih _ (searchModeLabelInvariant_click p h)

/-- Claim C7: starting from the initial Simple state, two consecutive
search-mode toggle clicks restore the identical page state (same form
shown, same form hidden, same button label), a single click does change
the state, and in every state reachable from startup by toggle clicks the
button label names exactly the state that is not currently active. -/
theorem c7_search_mode_two_cycle (p : PageState) (n : Nat) :
    searchModeBtnClick (searchModeBtnClick (initialPageSetup p)) = initialPageSetup p ∧
    searchModeBtnClick (initialPageSetup p) ≠ initialPageSetup p ∧
    searchModeLabelInvariant (searchModeBtnClicks n (initialPageSetup p)) := by
  refine ⟨?_, ?_, ?_⟩
  · cases p
    simp [initialPageSetup, toggleSearchMode, toggleNewEntryView, searchModeBtnClick]
  · intro h
    have := congrArg PageState.searchModeBtnText h
    simp [initialPageSetup, toggleSearchMode, toggleNewEntryView, searchModeBtnClick] at this
  · refine searchModeLabelInvariant_clicks n _ ?_
    simp [initialPageSetup, toggleSearchMode, toggleNewEntryView, searchModeLabelInvariant]

/-- Claim C3: on every new-entry submission that gets a response, the
observable actions happen in exactly this order: the form reset comes
first (before the request is even sent, hence before the response
arrives), the response is rendered, and only then is the overlay closed;
moreover every form field value ends up (and stays) empty. -/
theorem c3_new_entry_submit_order (entries : List MediaEntry) (s : JSState) :
    (newEntryFormSubmitHandler (some entries) s).events =
      s.events ++ [UIEvent.formReset, UIEvent.requestSent, UIEvent.responseArrived,
                   UIEvent.renderCompleted, UIEvent.overlayClosed] ∧
    (newEntryFormSubmitHandler (some entries) s).page.newEntryFormFields =
      s.page.newEntryFormFields.map (fun f : String × String => (f.1, "")) := by
  constructor <;> simp [newEntryFormSubmitHandler, toggleNewEntryView]

/-- Claim C9: whatever the network outcome, the new-entry submit handler
finishes with the overlay hidden and body scrolling restored, and the
overlay-closing action is the last action it performs. -/
theorem c9_overlay_closed_unconditionally (net : Option (List MediaEntry)) (s : JSState) :
    (newEntryFormSubmitHandler net s).page.newEntryViewDisplay = "none" ∧
    (newEntryFormSubmitHandler net s).page.bodyOverflow = "auto" ∧
    (newEntryFormSubmitHandler net s).events.getLast? = some UIEvent.overlayClosed := by
  cases net <;> simp [newEntryFormSubmitHandler, toggleNewEntryView, List.getLast?_concat]

/-- A concrete page state with every field empty, used to evaluate the
load handler at a concrete input. -/
def emptyPage : PageState :=
  { browser := []
    searchModeBtnText := ""
    searchFormSimpleDisplay := ""
    searchFormAdvancedDisplay := ""
    newEntryViewDisplay := ""
    bodyOverflow := ""
    newEntryFormFields := [] }

/-- A concrete script state over `emptyPage` with nothing logged yet. -/
def initJS : JSState :=
  { page := emptyPage
    consoleLog := []
    events := []
    unhandledRejections := 0
    listenerErrored := false }

/-- Claim C2 counterexample: a transport failure of the fetch-recent
operation is not caught locally and not logged - the load listener has no
try/catch, so the rejection escapes the listener and the console log
stays empty, contradicting the claim that all three network operations
catch and log their failures. -/
theorem c2_fetch_recent_failure_not_caught :
    (windowLoadHandler none initJS).listenerErrored = true ∧
    (windowLoadHandler none initJS).consoleLog = [] := by
  constructor <;> rfl

/-- Claim C2 as amended: for the search and new-entry submissions a
transport or parse failure is caught locally, logged as "Error:", and not
re-thrown (the listener completes normally and the display is untouched);
the fetch-recent operation, by contrast, catches nothing - its failure
propagates out of the load listener unlogged, though even then it only
becomes an unhandled rejection and the page display is untouched rather
than crashed. -/
theorem c2_error_handling (s : JSState) :
    ((searchFormSimpleSubmitHandler none s).consoleLog = s.consoleLog ++ ["Error:"] ∧
     (searchFormSimpleSubmitHandler none s).listenerErrored = s.listenerErrored ∧
     (searchFormSimpleSubmitHandler none s).page.browser = s.page.browser) ∧
    ((newEntryFormSubmitHandler none s).consoleLog = s.consoleLog ++ ["Error:"] ∧
     (newEntryFormSubmitHandler none s).listenerErrored = s.listenerErrored) ∧
    ((windowLoadHandler none s).consoleLog = s.consoleLog ∧
     (windowLoadHandler none s).listenerErrored = true ∧
     (windowLoadHandler none s).page.browser = s.page.browser) := by
  refine ⟨⟨?_, ?_, ?_⟩, ⟨?_, ?_⟩, ⟨?_, ?_, ?_⟩⟩ <;>
    simp [searchFormSimpleSubmitHandler, newEntryFormSubmitHandler, windowLoadHandler,
          toggleNewEntryView]
